import Mathlib

/-!
Verification development for the travel-planner tool-registry and dispatch core.

The definitions below are a shallow embedding of the Python source:
  - `core/services.py`   (HotelParameterMapper, DateValidator, HotelResponseFormatter)
  - `core/registry.py`   (TravelToolRegistry)
  - `tools_solid/hotel_tool.py` (HotelSearchTool.execute)
  - `server_solid.py`    (handle_call_tool)

Python runtime values are embedded as `PyVal` with Python truthiness.
Python dicts are embedded as association lists over `String` keys; lookup
takes the first (unique) matching key, and `setKey` mirrors dict item
assignment (replace in place, otherwise append), matching insertion-order
semantics of Python dicts whose key sets are duplicate-free.

`datetime.strptime(s, "%Y-%m-%d")` is embedded as `parseDate` (split on '-',
decimal components with the same width limits, calendar-validated days);
`datetime` comparison at midnight is embedded as the lexicographic order
`dateLt` on (year, month, day); `timedelta(days = n)` addition is embedded
with the standard civil-calendar day-number conversion (`rataDie` /
`dateOfRata`).  Exceptions are embedded as `Except.error` carrying the
message text; the exact wording of Python's internal exception messages
(e.g. the tail of a `strptime` ValueError) is reproduced approximately,
and no theorem below depends on that wording.
-/

/-- Embedded Python runtime value (the fragment used by the dispatch core). -/
inductive PyVal where
  | none
  | bool (b : Bool)
  | int (n : Int)
  | str (s : String)
  | rat (q : ℚ)
deriving DecidableEq, Repr

/-- An embedded Python dict with string keys: the raw argument bag, the
mapped-parameter dict, and reply payloads all have this shape. -/
abbrev Args := List (String × PyVal)

/-- Python truthiness (`bool(v)`) on embedded values. -/
def truthy : PyVal → Bool
  | PyVal.none => false
  | PyVal.bool b => b
  | PyVal.int n => decide (n ≠ 0)
  | PyVal.str s => decide (s ≠ "")
  | PyVal.rat q => decide (q ≠ 0)

/-- Dict lookup: first entry with the given key (Python `d[k]` / `d.get(k)`). -/
def getVal : List (String × PyVal) → String → Option PyVal
  | [], _ => Option.none
  | (k', v) :: rest, k => if k' = k then some v else getVal rest k

/-- Python `d.get(k)` (absent key gives `None`). -/
def pyGet (d : Args) (k : String) : PyVal := (getVal d k).getD PyVal.none

/-- Python `d.get(k, default)`. -/
def pyGetD (d : Args) (k : String) (v : PyVal) : PyVal := (getVal d k).getD v

/-- Python `x or y` (value-returning, truthiness-driven). -/
def pyOr (x y : PyVal) : PyVal := if truthy x then x else y

/-- Dict item assignment `d[k] = v`: replace in place if the key is present,
otherwise append (Python dicts preserve insertion order). -/
def setKey : List (String × PyVal) → String → PyVal → List (String × PyVal)
  | [], k, v => [(k, v)]
  | (k', v') :: rest, k, v =>
      if k' = k then (k, v) :: rest else (k', v') :: setKey rest k v

/-- Calendar date (year, month, day). -/
structure Date where
  year : Nat
  month : Nat
  day : Nat
deriving DecidableEq, Repr

/-- Gregorian leap-year test. -/
def isLeap (y : Nat) : Bool := (y % 4 == 0 && y % 100 != 0) || y % 400 == 0

/-- Number of days in a month of a given year. -/
def daysInMonth (y m : Nat) : Nat :=
  if m = 2 then (if isLeap y then 29 else 28)
  else if m = 4 ∨ m = 6 ∨ m = 9 ∨ m = 11 then 30
  else 31

/-- Day number of a civil date (days since 0000-03-01 of the proleptic
Gregorian calendar; the standard era/year-of-era civil algorithm). -/
def rataDie (d : Date) : Nat :=
  let y := if d.month ≤ 2 then d.year - 1 else d.year
  let era := y / 400
  let yoe := y % 400
  let mp := if d.month > 2 then d.month - 3 else d.month + 9
  let doy := (153 * mp + 2) / 5 + d.day - 1
  let doe := yoe * 365 + yoe / 4 - yoe / 100 + doy
  era * 146097 + doe

/-- Inverse of `rataDie`: the civil date of a day number. -/
def dateOfRata (z : Nat) : Date :=
  let era := z / 146097
  let doe := z % 146097
  let yoe := (doe - doe / 1460 + doe / 36524 - doe / 146096) / 365
  let y := yoe + era * 400
  let doy := doe - (365 * yoe + yoe / 4 - yoe / 100)
  let mp := (5 * doy + 2) / 153
  let d := doy - (153 * mp + 2) / 5 + 1
  let m := if mp < 10 then mp + 3 else mp - 9
  ⟨if m ≤ 2 then y + 1 else y, m, d⟩

/-- Calendar-day addition: `date + timedelta(days = n)`. -/
def addDays (d : Date) (n : Int) : Date := dateOfRata ((rataDie d + n : Int)).toNat

/-- Strict chronological order on dates: the comparison `datetime <`
performs on midnight datetimes, i.e. lexicographic on (year, month, day). -/
def dateLt (a b : Date) : Bool :=
  decide (a.year < b.year ∨ (a.year = b.year ∧
    (a.month < b.month ∨ (a.month = b.month ∧ a.day < b.day))))

/-- Decimal digit character. -/
def natDigitChar : Nat → Char
  | 0 => '0' | 1 => '1' | 2 => '2' | 3 => '3' | 4 => '4'
  | 5 => '5' | 6 => '6' | 7 => '7' | 8 => '8' | _ => '9'

/-- Value of a decimal digit character. -/
def charDigit (c : Char) : Option Nat :=
  if c = '0' then some 0 else if c = '1' then some 1 else if c = '2' then some 2
  else if c = '3' then some 3 else if c = '4' then some 4 else if c = '5' then some 5
  else if c = '6' then some 6 else if c = '7' then some 7 else if c = '8' then some 8
  else if c = '9' then some 9 else Option.none

/-- Parse a non-empty all-digit character list as a decimal number. -/
def digitsToNatAux : List Char → Nat → Option Nat
  | [], acc => some acc
  | c :: rest, acc =>
      match charDigit c with
      | some d => digitsToNatAux rest (acc * 10 + d)
      | Option.none => Option.none

/-- Parse a character list as a decimal `Nat`; `none` on empty or non-digit input. -/
def digitsToNat (cs : List Char) : Option Nat :=
  if cs = [] then Option.none else digitsToNatAux cs 0

/-- Render a `Nat` below 10^8 as decimal digits. -/
def natToDigitsAux : Nat → Nat → List Char → List Char
  | 0, _, acc => acc
  | fuel + 1, n, acc =>
      if n = 0 then acc
      else natToDigitsAux fuel (n / 10) (natDigitChar (n % 10) :: acc)

/-- Render a `Nat` as a decimal string left-padded with zeros to `width`
(the behaviour of `strftime` field formatting for the widths used here). -/
def padNum (width n : Nat) : String :=
  let ds := if n = 0 then ['0'] else natToDigitsAux 8 n []
  String.mk (List.replicate (width - ds.length) '0' ++ ds)

/-- Render a date as `strftime("%Y-%m-%d")` does: zero-padded `YYYY-MM-DD`. -/
def formatDate (d : Date) : String :=
  padNum 4 d.year ++ "-" ++ padNum 2 d.month ++ "-" ++ padNum 2 d.day

/-- Split a character list on `'-'` separators (`str.split("-")` semantics). -/
def splitDashAux : List Char → List Char → List (List Char)
  | [], acc => [acc.reverse]
  | c :: rest, acc =>
      if c = '-' then acc.reverse :: splitDashAux rest []
      else splitDashAux rest (c :: acc)

/-- Embedding of `datetime.strptime(s, "%Y-%m-%d").date()`: three dash-separated
decimal components (year at most 4 digits, month and day at most 2), month in
1..12 and day within the month; `none` embeds the `ValueError` raised on any
other input. -/
def parseDate (s : String) : Option Date :=
  match splitDashAux s.data [] with
  | [ys, ms, ds] =>
      match digitsToNat ys, digitsToNat ms, digitsToNat ds with
      | some y, some m, some d =>
          if ys.length ≤ 4 ∧ ms.length ≤ 2 ∧ ds.length ≤ 2 ∧ 1 ≤ y ∧
             1 ≤ m ∧ m ≤ 12 ∧ 1 ≤ d ∧ d ≤ daysInMonth y m
          then some ⟨y, m, d⟩ else Option.none
      | _, _, _ => Option.none
  | _ => Option.none

/-- Message of the `ValueError` raised by `strptime` on malformed input. -/
def strptimeMsg (s : String) : String :=
  "time data '" ++ s ++ "' does not match format '%Y-%m-%d'"

/-- Python `int(v)` on the embedded values (string parsing accepts an optional
leading minus sign followed by decimal digits; `None` raises). -/
def pyToInt : PyVal → Option Int
  | PyVal.int n => some n
  | PyVal.bool b => some (if b then 1 else 0)
  | PyVal.rat q => some (if 0 ≤ q then ⌊q⌋ else ⌈q⌉)
  | PyVal.str s =>
      match s.data with
      | '-' :: rest => (digitsToNat rest).map (fun n => -(n : Int))
      | cs => (digitsToNat cs).map (fun n => (n : Int))
  | PyVal.none => Option.none

/-- Embedding of `core/services.py` lines 224-229: the legacy-`nights`
departure-date derivation inside `HotelParameterMapper.map_parameters`.
Runs exactly when `departure_date` is falsy, `nights` is truthy and the
resolved arrival value is truthy; `strptime` is applied to the arrival value
first, then `int` to the nights value, and either failure propagates as an
exception (`Except.error`). -/
def mapDeparture (args : Args) (arrival : PyVal) : Except String PyVal :=
  let departure := pyGet args "departure_date"
  if !truthy departure && truthy (pyGet args "nights") && truthy arrival then
    match arrival with
    | PyVal.str s =>
        match parseDate s with
        | some d =>
            match pyToInt (pyGet args "nights") with
            | some n => Except.ok (PyVal.str (formatDate (addDays d n)))
            | Option.none => Except.error "invalid literal for int() with base 10"
        | Option.none => Except.error (strptimeMsg s)
    | _ => Except.error "strptime() argument 1 must be str"
  else Except.ok departure

/-- The dict returned by `HotelParameterMapper.map_parameters` once the
departure value has been resolved (`core/services.py` lines 233-242). -/
def mappedList (args : Args) (departure : PyVal) : Args :=
  [("location", pyOr (pyGet args "location") (pyGet args "city")),
   ("arrival_date", pyOr (pyGet args "arrival_date") (pyGet args "checkIn")),
   ("departure_date", departure),
   ("adults", pyOr (pyGet args "adults") (pyGetD args "guests" (PyVal.int 1))),
   ("children_age", pyGetD args "children_age" (PyVal.str "")),
   ("room_qty", pyGetD args "room_qty" (PyVal.int 1)),
   ("currency_code", pyGetD args "currency_code" (PyVal.str "USD")),
   ("languagecode", pyGetD args "languagecode" (PyVal.str "en-us"))]

/-- Embedding of `HotelParameterMapper.map_parameters`
(`core/services.py` lines 217-242). -/
def map_parameters (args : Args) : Except String Args :=
  match mapDeparture args (pyOr (pyGet args "arrival_date") (pyGet args "checkIn")) with
  | Except.error e => Except.error e
  | Except.ok departure => Except.ok (mappedList args departure)

/-- Embedding of `DateValidator.validate` (`core/services.py` lines 245-272).
`today` stands for `datetime.now()` truncated to midnight; `strptime` parses
the arrival value first, then the departure value; the ordering rule is
checked before the past-date rule.  A non-string date value makes `strptime`
raise a `TypeError`, caught by the outer handler. -/
def DateValidator.validate (today : Date) (data : Args) : Bool × Option String :=
  let arrival := pyGet data "arrival_date"
  let departure := pyGet data "departure_date"
  if !truthy arrival || !truthy departure then (false, some "Missing required dates")
  else
    match arrival with
    | PyVal.str a =>
        match parseDate a with
        | some da =>
            match departure with
            | PyVal.str b =>
                match parseDate b with
                | some db =>
                    if !dateLt da db then
                      (false, some "Departure date must be after arrival date")
                    else if dateLt da today then
                      (false, some "Arrival date cannot be in the past")
                    else (true, Option.none)
                | Option.none => (false, some ("Invalid date format: " ++ strptimeMsg b))
            | _ => (false, some "Date validation error: strptime() argument 1 must be str")
        | Option.none => (false, some ("Invalid date format: " ++ strptimeMsg a))
    | _ => (false, some "Date validation error: strptime() argument 1 must be str")

/-- Embedding of the `SearchResult` dataclass (`core/interfaces.py`). -/
structure SearchResult where
  success : Bool
  data : List (String × PyVal)
  error : Option String
  timestamp : Option String
  source : Option String

/-- Embedding of the `HotelSearchCriteria` dataclass (`core/interfaces.py`). -/
structure HotelSearchCriteria where
  location : PyVal
  arrival_date : PyVal
  departure_date : PyVal
  adults : PyVal
  children_age : PyVal
  room_qty : PyVal
  currency_code : PyVal
  languagecode : PyVal

/-- The criteria built by `HotelSearchTool.execute` from the mapped dict
(`tools_solid/hotel_tool.py` lines 144-153). -/
def criteriaOfMapped (m : Args) : HotelSearchCriteria :=
  ⟨pyGet m "location", pyGet m "arrival_date", pyGet m "departure_date",
   pyGetD m "adults" (PyVal.int 1), pyGetD m "children_age" (PyVal.str ""),
   pyGetD m "room_qty" (PyVal.int 1), pyGetD m "currency_code" (PyVal.str "USD"),
   pyGetD m "languagecode" (PyVal.str "en-us")⟩

/-- Outcome of `await self.search_service.search(criteria)` inside the tool's
`try` block: a raised exception (`Except.error`) is converted by the handler
at `tools_solid/hotel_tool.py` lines 160-165 into a failure result. -/
def serviceOutcome (svc : HotelSearchCriteria → Except String SearchResult)
    (c : HotelSearchCriteria) : SearchResult :=
  match svc c with
  | Except.ok r => r
  | Except.error e =>
      ⟨false, [], some ("Tool execution error: " ++ e), Option.none, Option.none⟩

/-- Embedding of `HotelSearchTool.execute` (`tools_solid/hotel_tool.py`
lines 114-165), with the bound service injected as `svc`.  The second
component counts how many times the bound service's `search` was invoked
during the call (the stub-service call counter of the specification's
end-to-end scenarios).  An exception raised by `map_parameters` is caught by
the tool's handler and converted to a failure result. -/
def HotelSearchTool.execute (svc : HotelSearchCriteria → Except String SearchResult)
    (args : Args) : SearchResult × Nat :=
  match map_parameters args with
  | Except.error e =>
      (⟨false, [], some ("Tool execution error: " ++ e), Option.none, Option.none⟩, 0)
  | Except.ok m =>
      if truthy (pyGet m "location") = false then
        (⟨false, [], some "Missing required parameter: location", Option.none, Option.none⟩, 0)
      else if truthy (pyGet m "arrival_date") = false ∨ truthy (pyGet m "departure_date") = false then
        (⟨false, [], some "Missing required parameters: arrival_date and departure_date",
          Option.none, Option.none⟩, 0)
      else (serviceOutcome svc (criteriaOfMapped m), 1)

/-- A registered tool: its registry name and its `execute` entry point, which
may raise (`Except.error`). -/
structure Tool where
  name : String
  exec : Args → Except String SearchResult

/-- The `TravelToolRegistry._tools` dict (`core/registry.py`). -/
abbrev Registry := List (String × Tool)

/-- Python `tool_name in self._tools`. -/
def containsName : Registry → String → Bool
  | [], _ => false
  | (k, _) :: rest, n => if k = n then true else containsName rest n

/-- Embedding of `TravelToolRegistry.register_tool`
(`core/registry.py` lines 26-43): raise on a duplicate name, else insert
(insertion order preserved).  The `isinstance` check is enforced by typing. -/
def register_tool (reg : Registry) (t : Tool) : Except String Registry :=
  if containsName reg t.name then
    Except.error ("Tool '" ++ t.name ++ "' is already registered")
  else Except.ok (reg ++ [(t.name, t)])

/-- Embedding of `TravelToolRegistry.get_tool_by_name`
(`core/registry.py` lines 54-64): `self._tools.get(name)`. -/
def get_tool_by_name : Registry → String → Option Tool
  | [], _ => Option.none
  | (k, t) :: rest, n => if k = n then some t else get_tool_by_name rest n

/-- How the dispatcher turns an optional string into a JSON value. -/
def optVal : Option String → PyVal
  | Option.none => PyVal.none
  | some s => PyVal.str s

/-- Embedding of the `handle_call_tool` dispatcher (`server_solid.py`
lines 93-120).  The reply is modelled as the `response_data` dict serialized
to the client: on success, `result.data` with `searchTimestamp` and `source`
set from the result envelope; on failure, `{error, timestamp}`.  An
unknown tool name raises `ValueError("Unknown tool: ...")` inside the `try`
block, and any exception (including one raised by the tool's `execute`) is
caught and rendered as `{error, timestamp}` with `timestamp = None`, since
the local `result` is unbound when `execute` raised. -/
def handle_call_tool (reg : Registry) (name : String) (args : Args) :
    List (String × PyVal) :=
  match get_tool_by_name reg name with
  | Option.none =>
      [("error", PyVal.str ("Tool execution failed: Unknown tool: " ++ name)),
       ("timestamp", PyVal.none)]
  | some t =>
      match t.exec args with
      | Except.error e =>
          [("error", PyVal.str ("Tool execution failed: " ++ e)),
           ("timestamp", PyVal.none)]
      | Except.ok r =>
          if r.success then
            setKey (setKey r.data "searchTimestamp" (optVal r.timestamp))
              "source" (optVal r.source)
          else
            [("error", optVal r.error), ("timestamp", optVal r.timestamp)]

/-- Embedding of the rating normalization in
`HotelResponseFormatter.format_response` (`core/services.py` line 150):
`rating / 10 if rating > 10 else rating` applied to the numeric
`review_score` field. -/
def HotelResponseFormatter.normalizeRating (rating : ℚ) : ℚ :=
  if rating > 10 then rating / 10 else rating

/-- Number of registry entries stored under a given name (used to state that
a name is never silently overwritten or duplicated). -/
def countName : Registry → String → Nat
  | [], _ => 0
  | (k, _) :: rest, n => (if k = n then 1 else 0) + countName rest n

/-- A stub service in the sense of the specification's end-to-end scenarios:
it echoes its criteria's location as `data` and performs no validation. -/
def stubEchoService : HotelSearchCriteria → Except String SearchResult :=
  fun c => Except.ok ⟨true, [("echoLocation", c.location)], Option.none,
    some "stub-time", some "stub"⟩

/-- Arguments whose arrival date is after the departure date. -/
def c1Args : Args :=
  [("location", PyVal.str "Austin"), ("arrival_date", PyVal.str "2025-10-04"),
   ("departure_date", PyVal.str "2025-10-01"), ("adults", PyVal.int 2)]

/-- The dict `map_parameters` produces for `c1Args`. -/
def c1Mapped : Args :=
  [("location", PyVal.str "Austin"), ("arrival_date", PyVal.str "2025-10-04"),
   ("departure_date", PyVal.str "2025-10-01"), ("adults", PyVal.int 2),
   ("children_age", PyVal.str ""), ("room_qty", PyVal.int 1),
   ("currency_code", PyVal.str "USD"), ("languagecode", PyVal.str "en-us")]

/-- Arguments carrying a falsy current-convention name next to a truthy
legacy alias. -/
def c3CexArgs : Args := [("location", PyVal.str ""), ("city", PyVal.str "Paris")]

/-- The dict `map_parameters` produces for `c3CexArgs`. -/
def c3CexMapped : Args :=
  [("location", PyVal.str "Paris"), ("arrival_date", PyVal.none),
   ("departure_date", PyVal.none), ("adults", PyVal.int 1),
   ("children_age", PyVal.str ""), ("room_qty", PyVal.int 1),
   ("currency_code", PyVal.str "USD"), ("languagecode", PyVal.str "en-us")]

/-- Arguments carrying truthy values under both naming conventions. -/
def c3WitnessArgs : Args :=
  [("location", PyVal.str "Austin"), ("city", PyVal.str "Boston"),
   ("adults", PyVal.int 2), ("guests", PyVal.int 5)]

/-- The dict `map_parameters` produces for `c3WitnessArgs`. -/
def c3WitnessMapped : Args :=
  [("location", PyVal.str "Austin"), ("arrival_date", PyVal.none),
   ("departure_date", PyVal.none), ("adults", PyVal.int 2),
   ("children_age", PyVal.str ""), ("room_qty", PyVal.int 1),
   ("currency_code", PyVal.str "USD"), ("languagecode", PyVal.str "en-us")]

/-- Arguments with a present-but-empty `departure_date` and a legacy
`nights` count. -/
def c5CexArgs : Args :=
  [("arrival_date", PyVal.str "2025-06-01"), ("nights", PyVal.int 2),
   ("departure_date", PyVal.str "")]

/-- The dict `map_parameters` produces for `c5CexArgs`. -/
def c5CexMapped : Args :=
  [("location", PyVal.none), ("arrival_date", PyVal.str "2025-06-01"),
   ("departure_date", PyVal.str "2025-06-03"), ("adults", PyVal.int 1),
   ("children_age", PyVal.str ""), ("room_qty", PyVal.int 1),
   ("currency_code", PyVal.str "USD"), ("languagecode", PyVal.str "en-us")]

/-- Legacy-shaped arguments: city, check-in and a nights count. -/
def c5WitnessArgs : Args :=
  [("city", PyVal.str "Austin"), ("checkIn", PyVal.str "2025-01-30"),
   ("nights", PyVal.int 3)]

/-- The dict `map_parameters` produces for `c5WitnessArgs` (note the derived
departure date crossing a month boundary). -/
def c5WitnessMapped : Args :=
  [("location", PyVal.str "Austin"), ("arrival_date", PyVal.str "2025-01-30"),
   ("departure_date", PyVal.str "2025-02-02"), ("adults", PyVal.int 1),
   ("children_age", PyVal.str ""), ("room_qty", PyVal.int 1),
   ("currency_code", PyVal.str "USD"), ("languagecode", PyVal.str "en-us")]

/-- A fixed current day for validator scenarios. -/
def c6Today : Date := ⟨2025, 6, 10⟩

/-- Criteria whose arrival is in the past and also not before its departure. -/
def c6CexData : Args :=
  [("arrival_date", PyVal.str "2025-06-05"),
   ("departure_date", PyVal.str "2025-06-03")]

/-- Criteria with equal arrival and departure dates. -/
def c6DataEqual : Args :=
  [("arrival_date", PyVal.str "2025-06-15"),
   ("departure_date", PyVal.str "2025-06-15")]

/-- Criteria with a past arrival date but correctly ordered dates. -/
def c6DataPast : Args :=
  [("arrival_date", PyVal.str "2025-06-05"),
   ("departure_date", PyVal.str "2025-06-20")]

/-- Criteria passing every validation rule relative to `c6Today`. -/
def c6DataOk : Args :=
  [("arrival_date", PyVal.str "2025-06-15"),
   ("departure_date", PyVal.str "2025-06-20")]

/-- An empty search result used by concrete tool instances. -/
def emptyResult : SearchResult := ⟨false, [], Option.none, Option.none, Option.none⟩

/-- A tool registered first under the name `searchHotels`. -/
def t1Tool : Tool := ⟨"searchHotels", fun _ => Except.ok emptyResult⟩

/-- A second, different tool carrying the same name as `t1Tool`. -/
def t2Tool : Tool := ⟨"searchHotels", fun _ => Except.error "second tool"⟩

/-- A tool whose `execute` raises. -/
def boomTool : Tool := ⟨"searchHotels", fun _ => Except.error "service blew up"⟩

/-- A success result whose `data` already contains keys named
`source` and `searchTimestamp`. -/
def sneakyResult : SearchResult :=
  ⟨true,
   [("hotels", PyVal.int 3), ("source", PyVal.str "sneaky"),
    ("searchTimestamp", PyVal.str "sneaky-time")],
   Option.none, some "true-time", some "Booking.com RapidAPI"⟩

/-- A tool returning `sneakyResult`. -/
def sneakyTool : Tool := ⟨"searchHotels", fun _ => Except.ok sneakyResult⟩

/-- Arguments with an unparseable arrival date and a zero nights count. -/
def c10CexArgs : Args :=
  [("location", PyVal.str "Austin"), ("arrival_date", PyVal.str "not-a-date"),
   ("nights", PyVal.int 0)]

/-- The dict `map_parameters` produces for `c10CexArgs`: the unparseable
arrival string passes through untouched because the falsy nights count
suppresses the derivation. -/
def c10CexMapped : Args :=
  [("location", PyVal.str "Austin"), ("arrival_date", PyVal.str "not-a-date"),
   ("departure_date", PyVal.none), ("adults", PyVal.int 1),
   ("children_age", PyVal.str ""), ("room_qty", PyVal.int 1),
   ("currency_code", PyVal.str "USD"), ("languagecode", PyVal.str "en-us")]

/-- Arguments with an unparseable legacy check-in date and a truthy nights
count. -/
def c10WitnessArgs : Args :=
  [("checkIn", PyVal.str "bad-date"), ("nights", PyVal.int 2)]

/-- Lookup on a cons cell unfolds to a key comparison. -/
theorem getVal_cons (k' : String) (v : PyVal) (rest : List (String × PyVal)) (k : String) :
    getVal ((k', v) :: rest) k = if k' = k then some v else getVal rest k := rfl

/-- After `setKey d k v`, looking up `k` yields `v`. -/
theorem getVal_setKey_same (d : List (String × PyVal)) (k : String) (v : PyVal) :
    getVal (setKey d k v) k = some v := by
  induction d with
  | nil => simp [setKey, getVal]
  | cons p rest ih =>
      obtain ⟨k', v'⟩ := p
      by_cases h : k' = k
      · simp [setKey, getVal, h]
      · simp [setKey, getVal, h, ih]

/-- `setKey d k v` leaves every other key's binding unchanged. -/
theorem getVal_setKey_ne (d : List (String × PyVal)) (k : String) (v : PyVal)
    (k' : String) (h : k ≠ k') : getVal (setKey d k v) k' = getVal d k' := by
  induction d with
  | nil => simp [setKey, getVal, h]
  | cons p rest ih =>
      obtain ⟨k₀, v₀⟩ := p
      by_cases h0 : k₀ = k
      · subst h0; simp [setKey, getVal, h]
      · simp [setKey, getVal, h0, ih]

/-- The empty string never parses as a date. -/
theorem parseDate_empty : parseDate "" = Option.none := rfl

/-- A string that parses as a date is truthy. -/
theorem truthy_str_of_parse {s : String} {d : Date} (h : parseDate s = some d) :
    truthy (PyVal.str s) = true := by
  by_cases hs : s = ""
  · subst hs; rw [parseDate_empty] at h; cases h
  · simp [truthy, hs]

/-- A successful `map_parameters` run is a successful departure resolution
followed by the literal result dict. -/
theorem map_parameters_eq_ok {args m : Args} (h : map_parameters args = Except.ok m) :
    ∃ dep, mapDeparture args (pyOr (pyGet args "arrival_date") (pyGet args "checkIn")) =
      Except.ok dep ∧ m = mappedList args dep := by
  cases hd : mapDeparture args (pyOr (pyGet args "arrival_date") (pyGet args "checkIn")) with
  | error e => simp [map_parameters, hd] at h
  | ok dep => simp [map_parameters, hd] at h; exact ⟨dep, rfl, h.symm⟩

/-- The mapped dict's `location` entry. -/
theorem getVal_mappedList_location (args : Args) (dep : PyVal) :
    getVal (mappedList args dep) "location" =
      some (pyOr (pyGet args "location") (pyGet args "city")) := by
  unfold mappedList
  rw [getVal_cons, if_pos rfl]

/-- The mapped dict's `arrival_date` entry. -/
theorem getVal_mappedList_arrival (args : Args) (dep : PyVal) :
    getVal (mappedList args dep) "arrival_date" =
      some (pyOr (pyGet args "arrival_date") (pyGet args "checkIn")) := by
  unfold mappedList
  rw [getVal_cons, if_neg (by decide), getVal_cons, if_pos rfl]

/-- The mapped dict's `departure_date` entry. -/
theorem getVal_mappedList_departure (args : Args) (dep : PyVal) :
    getVal (mappedList args dep) "departure_date" = some dep := by
  unfold mappedList
  rw [getVal_cons, if_neg (by decide), getVal_cons, if_neg (by decide),
    getVal_cons, if_pos rfl]

/-- The mapped dict's `adults` entry. -/
theorem getVal_mappedList_adults (args : Args) (dep : PyVal) :
    getVal (mappedList args dep) "adults" =
      some (pyOr (pyGet args "adults") (pyGetD args "guests" (PyVal.int 1))) := by
  unfold mappedList
  rw [getVal_cons, if_neg (by decide), getVal_cons, if_neg (by decide),
    getVal_cons, if_neg (by decide), getVal_cons, if_pos rfl]

/-- Claim C3 (amended): for every argument map that `map_parameters` accepts,
each aliased target field is resolved by a Python-truthiness `or`-chain —
`location` from `location or city`, `arrival_date` from
`arrival_date or checkIn`, `adults` from `adults or guests-default-1` — so
the current-convention value wins exactly when it is truthy, and a falsy
current value falls through to the legacy alias. -/
theorem map_parameters_alias_priority (args m : Args)
    (h : map_parameters args = Except.ok m) :
    (getVal m "location" = some (pyOr (pyGet args "location") (pyGet args "city")) ∧
     getVal m "arrival_date" = some (pyOr (pyGet args "arrival_date") (pyGet args "checkIn")) ∧
     getVal m "adults" = some (pyOr (pyGet args "adults") (pyGetD args "guests" (PyVal.int 1)))) ∧
    (∀ x y : PyVal, truthy x = true → pyOr x y = x) ∧
    (∀ x y : PyVal, truthy x = false → pyOr x y = y) := by
  obtain ⟨dep, hd, hm⟩ := map_parameters_eq_ok h
  subst hm
  refine ⟨⟨getVal_mappedList_location args dep, getVal_mappedList_arrival args dep,
    getVal_mappedList_adults args dep⟩, ?_, ?_⟩
  · intro x y hx; simp [pyOr, hx]
  · intro x y hx; simp [pyOr, hx]

/-- Claim C3 (counterexample to the claim as stated): with a present-but-empty
current-convention `location` next to a legacy `city`, the mapper resolves
`location` to the legacy value, not to the present current-convention value. -/
theorem map_parameters_alias_priority_counterexample :
    getVal c3CexArgs "location" = some (PyVal.str "") ∧
    getVal c3CexArgs "city" = some (PyVal.str "Paris") ∧
    map_parameters c3CexArgs = Except.ok c3CexMapped ∧
    getVal c3CexMapped "location" = some (PyVal.str "Paris") ∧
    PyVal.str "Paris" ≠ PyVal.str "" :=
  ⟨rfl, rfl, rfl, rfl, by decide⟩

/-- Claim C3 (witness): with truthy values under both conventions, the
current-convention values win. -/
theorem map_parameters_alias_priority_witness :
    getVal c3WitnessMapped "location" = some (PyVal.str "Austin") ∧
    getVal c3WitnessMapped "adults" = some (PyVal.int 2) := by
  have h := map_parameters_alias_priority c3WitnessArgs c3WitnessMapped rfl
  exact ⟨h.1.1.trans rfl, h.1.2.2.trans rfl⟩

/-- Claim C5 (amended): the departure-date derivation runs exactly when the
direct `departure_date` value is falsy (absent or empty), the legacy `nights`
value is truthy and the resolved arrival value is truthy; when it runs on an
arrival string parsing to date `d` and a nights value converting to integer
`n`, the mapped `departure_date` is `d` plus `n` calendar days formatted
`YYYY-MM-DD`; when the direct `departure_date` is truthy it is passed through
unchanged. -/
theorem map_parameters_derives_departure (args : Args) (s : String) (d : Date)
    (n : Int) (m : Args) :
    (truthy (pyGet args "departure_date") = false →
     truthy (pyGet args "nights") = true →
     pyOr (pyGet args "arrival_date") (pyGet args "checkIn") = PyVal.str s →
     parseDate s = some d →
     pyToInt (pyGet args "nights") = some n →
     map_parameters args = Except.ok m →
     getVal m "departure_date" = some (PyVal.str (formatDate (addDays d n)))) ∧
    (truthy (pyGet args "departure_date") = true →
     map_parameters args = Except.ok m →
     getVal m "departure_date" = some (pyGet args "departure_date")) := by
  constructor
  · intro hdep hn harr hparse hint hok
    obtain ⟨dep, hd, hm⟩ := map_parameters_eq_ok hok
    subst hm
    rw [getVal_mappedList_departure]
    have hs : truthy (PyVal.str s) = true := truthy_str_of_parse hparse
    rw [harr] at hd
    unfold mapDeparture at hd
    simp [hdep, hn, hs, hparse, hint] at hd
    rw [← hd]
  · intro hdep hok
    obtain ⟨dep, hd, hm⟩ := map_parameters_eq_ok hok
    subst hm
    rw [getVal_mappedList_departure]
    unfold mapDeparture at hd
    simp [hdep] at hd
    rw [← hd]

/-- Claim C5 (counterexample to the claim as stated): with an explicitly
present, empty-string `departure_date`, the derivation still runs, so the
derivation is not restricted to argument maps where the direct field is
absent. -/
theorem map_parameters_derives_departure_counterexample :
    getVal c5CexArgs "departure_date" = some (PyVal.str "") ∧
    map_parameters c5CexArgs = Except.ok c5CexMapped ∧
    getVal c5CexMapped "departure_date" = some (PyVal.str "2025-06-03") ∧
    PyVal.str "2025-06-03" ≠ PyVal.str "" :=
  ⟨rfl, rfl, rfl, by decide⟩

/-- Claim C5 (witness): legacy arguments `checkIn = 2025-01-30, nights = 3`
derive `departure_date = 2025-02-02`, crossing a month boundary. -/
theorem map_parameters_derives_departure_witness :
    getVal c5WitnessMapped "departure_date" =
      some (PyVal.str (formatDate (addDays ⟨2025, 1, 30⟩ 3))) ∧
    formatDate (addDays ⟨2025, 1, 30⟩ 3) = "2025-02-02" := by
  refine ⟨(map_parameters_derives_departure c5WitnessArgs "2025-01-30"
    ⟨2025, 1, 30⟩ 3 c5WitnessMapped).1 rfl rfl rfl rfl rfl rfl, rfl⟩

/-- Claim C10 (amended): when the direct `departure_date` is falsy, the
`nights` value is truthy, and the resolved arrival value is a non-empty
string that does not parse as `YYYY-MM-DD`, `map_parameters` itself raises
(the `strptime` ValueError propagates out of the mapper), while
`HotelSearchTool.execute` on the same arguments catches it and returns a
failure result without ever invoking the bound service. -/
theorem map_parameters_unparseable_arrival
    (svc : HotelSearchCriteria → Except String SearchResult)
    (args : Args) (s : String)
    (hdep : truthy (pyGet args "departure_date") = false)
    (hn : truthy (pyGet args "nights") = true)
    (harr : pyOr (pyGet args "arrival_date") (pyGet args "checkIn") = PyVal.str s)
    (hs : s ≠ "")
    (hparse : parseDate s = Option.none) :
    map_parameters args = Except.error (strptimeMsg s) ∧
    (HotelSearchTool.execute svc args).1.success = false ∧
    (HotelSearchTool.execute svc args).1.error =
      some ("Tool execution error: " ++ strptimeMsg s) ∧
    (HotelSearchTool.execute svc args).2 = 0 := by
  have hd : mapDeparture args (pyOr (pyGet args "arrival_date") (pyGet args "checkIn")) =
      Except.error (strptimeMsg s) := by
    rw [harr]
    unfold mapDeparture
    have hs' : truthy (PyVal.str s) = true := by simp [truthy, hs]
    simp [hdep, hn, hs', hparse]
  have hmp : map_parameters args = Except.error (strptimeMsg s) := by
    simp [map_parameters, hd]
  refine ⟨hmp, ?_, ?_, ?_⟩ <;> simp [HotelSearchTool.execute, hmp]

/-- Claim C10 (counterexample to the claim as stated): with a present but
zero `nights` value and an unparseable arrival date, `map_parameters` does
not raise — the falsy nights count suppresses the derivation and the
unparseable arrival string passes through into the mapped dict. -/
theorem map_parameters_unparseable_arrival_counterexample :
    getVal c10CexArgs "nights" = some (PyVal.int 0) ∧
    parseDate "not-a-date" = Option.none ∧
    map_parameters c10CexArgs = Except.ok c10CexMapped :=
  ⟨rfl, rfl, rfl⟩

/-- Claim C10 (witness): a truthy nights count with an unparseable legacy
check-in makes the mapper raise and the tool return a failure result with
the service never invoked. -/
theorem map_parameters_unparseable_arrival_witness :
    map_parameters c10WitnessArgs = Except.error (strptimeMsg "bad-date") ∧
    (HotelSearchTool.execute stubEchoService c10WitnessArgs).1.success = false ∧
    (HotelSearchTool.execute stubEchoService c10WitnessArgs).1.error =
      some ("Tool execution error: " ++ strptimeMsg "bad-date") ∧
    (HotelSearchTool.execute stubEchoService c10WitnessArgs).2 = 0 :=
  map_parameters_unparseable_arrival stubEchoService c10WitnessArgs "bad-date"
    rfl rfl rfl (by decide) rfl

/-- Claim C1 (amended): the per-call pipeline does not short-circuit on
mis-ordered dates — whenever mapping succeeds and the mapped `location`,
`arrival_date` and `departure_date` are all truthy (date ordering is never
inspected by the tool), `HotelSearchTool.execute` invokes the bound
service's `search` exactly once and returns that service's outcome
unchanged; a stub service's call counter therefore reaches one, not zero. -/
theorem execute_invokes_service
    (svc : HotelSearchCriteria → Except String SearchResult) (args m : Args)
    (hok : map_parameters args = Except.ok m)
    (hl : truthy (pyGet m "location") = true)
    (ha : truthy (pyGet m "arrival_date") = true)
    (hd : truthy (pyGet m "departure_date") = true) :
    HotelSearchTool.execute svc args = (serviceOutcome svc (criteriaOfMapped m), 1) := by
  simp [HotelSearchTool.execute, hok, hl, ha, hd]

/-- Claim C1 (counterexample to the claim as stated): calling the tool with
`arrival_date` after `departure_date` and a stub service bound, the stub's
call counter reaches one (not zero) and the reply is the stub's success
echo, not a validation failure. -/
theorem execute_invokes_service_counterexample :
    parseDate "2025-10-04" = some ⟨2025, 10, 4⟩ ∧
    parseDate "2025-10-01" = some ⟨2025, 10, 1⟩ ∧
    dateLt ⟨2025, 10, 1⟩ ⟨2025, 10, 4⟩ = true ∧
    (HotelSearchTool.execute stubEchoService c1Args).2 = 1 ∧
    (HotelSearchTool.execute stubEchoService c1Args).1.success = true ∧
    (HotelSearchTool.execute stubEchoService c1Args).1.error = Option.none :=
  ⟨rfl, rfl, by decide, rfl, rfl, rfl⟩

/-- Claim C1 (witness): the amended theorem applied to the mis-ordered
concrete arguments and the stub service. -/
theorem execute_invokes_service_witness :
    HotelSearchTool.execute stubEchoService c1Args =
      (serviceOutcome stubEchoService (criteriaOfMapped c1Mapped), 1) :=
  execute_invokes_service stubEchoService c1Args c1Mapped rfl rfl rfl rfl

/-- Claim C6 (amended): for criteria whose two date strings both parse as
`YYYY-MM-DD`, the validator returns the ordering failure whenever
`departure <= arrival`; it returns the past-date failure whenever the
ordering rule passes and `arrival` is strictly before today (ordering is
checked first, so a criteria violating both rules gets the ordering
message); it returns `(true, None)` when all rules pass — regardless of
what the other fields hold. -/
theorem validate_date_rules (today : Date) (data : Args) (a b : String)
    (da db : Date)
    (ha : pyGet data "arrival_date" = PyVal.str a)
    (hb : pyGet data "departure_date" = PyVal.str b)
    (hpa : parseDate a = some da)
    (hpb : parseDate b = some db) :
    (dateLt da db = false →
      DateValidator.validate today data =
        (false, some "Departure date must be after arrival date")) ∧
    (dateLt da db = true → dateLt da today = true →
      DateValidator.validate today data =
        (false, some "Arrival date cannot be in the past")) ∧
    (dateLt da db = true → dateLt da today = false →
      DateValidator.validate today data = (true, Option.none)) := by
  have hta : truthy (PyVal.str a) = true := truthy_str_of_parse hpa
  have htb : truthy (PyVal.str b) = true := truthy_str_of_parse hpb
  refine ⟨fun h1 => ?_, fun h1 h2 => ?_, fun h1 h2 => ?_⟩ <;>
    · unfold DateValidator.validate
      simp [ha, hb, hpa, hpb, hta, htb, h1, *]

/-- Claim C6 (counterexample to the claim as stated): a criteria whose
arrival is strictly before today but whose departure is not after its
arrival gets the ordering message, not the past-date message the claim
promises for every past arrival. -/
theorem validate_date_rules_counterexample :
    parseDate "2025-06-05" = some ⟨2025, 6, 5⟩ ∧
    dateLt ⟨2025, 6, 5⟩ c6Today = true ∧
    DateValidator.validate c6Today c6CexData =
      (false, some "Departure date must be after arrival date") ∧
    DateValidator.validate c6Today c6CexData ≠
      (false, some "Arrival date cannot be in the past") :=
  ⟨rfl, by decide, rfl, by decide⟩

/-- Claim C6 (witness): the three amended branches at concrete criteria —
equal dates fail with the ordering message, a past arrival with ordered
dates fails with the past-date message, and future ordered dates pass. -/
theorem validate_date_rules_witness :
    DateValidator.validate c6Today c6DataEqual =
      (false, some "Departure date must be after arrival date") ∧
    DateValidator.validate c6Today c6DataPast =
      (false, some "Arrival date cannot be in the past") ∧
    DateValidator.validate c6Today c6DataOk = (true, Option.none) := by
  refine ⟨(validate_date_rules c6Today c6DataEqual "2025-06-15" "2025-06-15"
      ⟨2025, 6, 15⟩ ⟨2025, 6, 15⟩ rfl rfl rfl rfl).1 (by decide),
    (validate_date_rules c6Today c6DataPast "2025-06-05" "2025-06-20"
      ⟨2025, 6, 5⟩ ⟨2025, 6, 20⟩ rfl rfl rfl rfl).2.1 (by decide) (by decide),
    (validate_date_rules c6Today c6DataOk "2025-06-15" "2025-06-20"
      ⟨2025, 6, 15⟩ ⟨2025, 6, 20⟩ rfl rfl rfl rfl).2.2 (by decide) (by decide)⟩

/-- Claim C8 (confirmed): the hotel-rating normalization divides a raw
review score by 10 exactly when it exceeds 10 and passes it through
otherwise; in particular a score of exactly 10 is unchanged. -/
theorem normalizeRating_spec (r : ℚ) :
    (10 < r → HotelResponseFormatter.normalizeRating r = r / 10) ∧
    (r ≤ 10 → HotelResponseFormatter.normalizeRating r = r) ∧
    HotelResponseFormatter.normalizeRating 10 = 10 := by
  refine ⟨fun h => ?_, fun h => ?_, ?_⟩
  · simp [HotelResponseFormatter.normalizeRating, h]
  · have h' : ¬ (r > 10) := not_lt.mpr h
    simp [HotelResponseFormatter.normalizeRating, h']
  · norm_num [HotelResponseFormatter.normalizeRating]

/-- Claim C8 (witness): a 0-100-scale score of 87 is divided by 10 and a
0-10-scale score of 7 passes through. -/
theorem normalizeRating_spec_witness :
    HotelResponseFormatter.normalizeRating 87 = 87 / 10 ∧
    HotelResponseFormatter.normalizeRating 7 = 7 :=
  ⟨(normalizeRating_spec 87).1 (by norm_num), (normalizeRating_spec 7).2.1 (by norm_num)⟩

/-- A name is contained in the registry exactly when lookup finds a tool. -/
theorem containsName_eq (reg : Registry) (n : String) :
    containsName reg n = (get_tool_by_name reg n).isSome := by
  induction reg with
  | nil => rfl
  | cons p rest ih =>
      obtain ⟨k, t⟩ := p
      by_cases hk : k = n <;> simp [containsName, get_tool_by_name, hk, ih]

/-- Appending a fresh entry to a registry without the name makes it findable. -/
theorem get_tool_append_of_none {reg : Registry} {n : String}
    (h : get_tool_by_name reg n = Option.none) (x : String × Tool) :
    get_tool_by_name (reg ++ [x]) n =
      if x.1 = n then some x.2 else Option.none := by
  induction reg with
  | nil => obtain ⟨k, t⟩ := x; rfl
  | cons p rest ih =>
      obtain ⟨k, t⟩ := p
      by_cases hk : k = n
      · simp [get_tool_by_name, hk] at h
      · simp [get_tool_by_name, hk] at h ⊢; exact ih h

/-- Entry multiplicity distributes over appending a single entry. -/
theorem countName_append (reg : Registry) (x : String × Tool) (n : String) :
    countName (reg ++ [x]) n = countName reg n + (if x.1 = n then 1 else 0) := by
  induction reg with
  | nil => obtain ⟨k, t⟩ := x; simp [countName]
  | cons p rest ih =>
      obtain ⟨k, t⟩ := p
      simp [countName, ih]
      ring

/-- A name that lookup cannot find has multiplicity zero. -/
theorem countName_eq_zero {reg : Registry} {n : String}
    (h : get_tool_by_name reg n = Option.none) : countName reg n = 0 := by
  induction reg with
  | nil => rfl
  | cons p rest ih =>
      obtain ⟨k, t⟩ := p
      by_cases hk : k = n
      · simp [get_tool_by_name, hk] at h
      · simp [get_tool_by_name, hk] at h
        simp [countName, hk, ih h]

/-- Claim C4 (confirmed): once a tool is registered under a fresh name,
registering any second tool with the same name fails with the
duplicate-name error, and the registry still holds the first tool as the
single entry under that name — no silent overwrite. -/
theorem register_tool_duplicate (reg0 reg1 : Registry) (t1 t2 : Tool)
    (hname : t2.name = t1.name)
    (h0 : get_tool_by_name reg0 t1.name = Option.none)
    (h1 : register_tool reg0 t1 = Except.ok reg1) :
    register_tool reg1 t2 =
      Except.error ("Tool '" ++ t2.name ++ "' is already registered") ∧
    get_tool_by_name reg1 t1.name = some t1 ∧
    countName reg1 t1.name = 1 := by
  have hc0 : containsName reg0 t1.name = false := by
    rw [containsName_eq, h0]; rfl
  have hreg : reg1 = reg0 ++ [(t1.name, t1)] := by
    rw [register_tool] at h1
    simp [hc0] at h1
    exact h1.symm
  subst hreg
  have hget : get_tool_by_name (reg0 ++ [(t1.name, t1)]) t1.name = some t1 := by
    rw [get_tool_append_of_none h0]; simp
  refine ⟨?_, hget, ?_⟩
  · have hc1 : containsName (reg0 ++ [(t1.name, t1)]) t2.name = true := by
      rw [hname, containsName_eq, hget]; rfl
    rw [register_tool]
    simp [hc1]
  · rw [countName_append, countName_eq_zero h0]; simp

/-- Claim C4 (witness): registering `t2Tool` after `t1Tool` under the shared
name `searchHotels` fails and leaves `t1Tool` as the only entry. -/
theorem register_tool_duplicate_witness :
    register_tool [("searchHotels", t1Tool)] t2Tool =
      Except.error ("Tool '" ++ t2Tool.name ++ "' is already registered") ∧
    get_tool_by_name [("searchHotels", t1Tool)] t1Tool.name = some t1Tool ∧
    countName [("searchHotels", t1Tool)] t1Tool.name = 1 :=
  register_tool_duplicate [] [("searchHotels", t1Tool)] t1Tool t2Tool rfl rfl rfl

/-- Claim C2 (confirmed): whenever the resolved tool's `execute` raises, the
dispatcher converts the exception into the well-formed
`{error, timestamp}` reply whose error is the pre-formatted
`Tool execution failed:` text — nothing propagates past `handle_call_tool`. -/
theorem handle_call_tool_exec_error (reg : Registry) (name : String)
    (args : Args) (t : Tool) (e : String)
    (h1 : get_tool_by_name reg name = some t)
    (h2 : t.exec args = Except.error e) :
    handle_call_tool reg name args =
      [("error", PyVal.str ("Tool execution failed: " ++ e)),
       ("timestamp", PyVal.none)] := by
  simp [handle_call_tool, h1, h2]

/-- Claim C2 (witness): a registered tool whose `execute` raises yields the
formatted error reply. -/
theorem handle_call_tool_exec_error_witness :
    handle_call_tool [("searchHotels", boomTool)] "searchHotels" [] =
      [("error", PyVal.str ("Tool execution failed: " ++ "service blew up")),
       ("timestamp", PyVal.none)] :=
  handle_call_tool_exec_error [("searchHotels", boomTool)] "searchHotels" []
    boomTool "service blew up" rfl rfl

/-- Claim C7 (confirmed): dispatching a name absent from the registry yields
a failure reply whose error text embeds the offending name, which carries no
`data` key, and which always includes a `timestamp` field; the dispatcher
never throws. -/
theorem handle_call_tool_unknown (reg : Registry) (name : String) (args : Args)
    (h : get_tool_by_name reg name = Option.none) :
    handle_call_tool reg name args =
      [("error", PyVal.str ("Tool execution failed: Unknown tool: " ++ name)),
       ("timestamp", PyVal.none)] ∧
    getVal (handle_call_tool reg name args) "data" = Option.none ∧
    getVal (handle_call_tool reg name args) "timestamp" = some PyVal.none := by
  have he : handle_call_tool reg name args =
      [("error", PyVal.str ("Tool execution failed: Unknown tool: " ++ name)),
       ("timestamp", PyVal.none)] := by
    simp [handle_call_tool, h]
  refine ⟨he, ?_, ?_⟩ <;> rw [he] <;> rfl

/-- Claim C7 (witness): dispatching `searchFlights` against an empty registry. -/
theorem handle_call_tool_unknown_witness :
    handle_call_tool [] "searchFlights" [] =
      [("error", PyVal.str ("Tool execution failed: Unknown tool: " ++ "searchFlights")),
       ("timestamp", PyVal.none)] ∧
    getVal (handle_call_tool [] "searchFlights" []) "data" = Option.none ∧
    getVal (handle_call_tool [] "searchFlights" []) "timestamp" = some PyVal.none :=
  handle_call_tool_unknown [] "searchFlights" [] rfl

/-- Claim C9 (confirmed): on a success result the dispatcher's reply maps
every key other than `searchTimestamp` and `source` to its unchanged value
from `result.data`, while `searchTimestamp` and `source` are always bound to
the result envelope's timestamp and source — overwriting any equally-named
keys the service placed inside `data`. -/
theorem handle_call_tool_success_overwrite (reg : Registry) (name : String)
    (args : Args) (t : Tool) (r : SearchResult) (k : String)
    (h1 : get_tool_by_name reg name = some t)
    (h2 : t.exec args = Except.ok r)
    (h3 : r.success = true) :
    (k ≠ "searchTimestamp" → k ≠ "source" →
      getVal (handle_call_tool reg name args) k = getVal r.data k) ∧
    getVal (handle_call_tool reg name args) "searchTimestamp" =
      some (optVal r.timestamp) ∧
    getVal (handle_call_tool reg name args) "source" = some (optVal r.source) := by
  have he : handle_call_tool reg name args =
      setKey (setKey r.data "searchTimestamp" (optVal r.timestamp))
        "source" (optVal r.source) := by
    simp [handle_call_tool, h1, h2, h3]
  refine ⟨fun hk1 hk2 => ?_, ?_, ?_⟩ <;> rw [he]
  · rw [getVal_setKey_ne _ _ _ _ (Ne.symm hk2), getVal_setKey_ne _ _ _ _ (Ne.symm hk1)]
  · rw [getVal_setKey_ne _ _ _ _ (by decide), getVal_setKey_same]
  · rw [getVal_setKey_same]

/-- Claim C9 (witness): a service result smuggling `source` and
`searchTimestamp` keys inside `data` has them overwritten by the envelope
values, while an ordinary key passes through unchanged. -/
theorem handle_call_tool_success_overwrite_witness :
    getVal (handle_call_tool [("searchHotels", sneakyTool)] "searchHotels" [])
      "hotels" = getVal sneakyResult.data "hotels" ∧
    getVal (handle_call_tool [("searchHotels", sneakyTool)] "searchHotels" [])
      "searchTimestamp" = some (optVal sneakyResult.timestamp) ∧
    getVal (handle_call_tool [("searchHotels", sneakyTool)] "searchHotels" [])
      "source" = some (optVal sneakyResult.source) := by
  have h := handle_call_tool_success_overwrite [("searchHotels", sneakyTool)]
    "searchHotels" [] sneakyTool sneakyResult "hotels" rfl rfl rfl
  exact ⟨h.1 (by decide) (by decide), h.2.1, h.2.2⟩
